import Mathlib

/-!
Verification development for the Minesweeper/BOIFI recommender repository.

The repository contains two implementations of the severity analyzer:
* `src/recommender/src/boifi_recommender/analyzer/service.py` (namespace `Boifi` below), and
* `src/recommender/src/analyzer/service.py` (namespace `Analyzer` below),
together with the executor client (`clients/executor_client.py`, namespace `Client`),
the session model (`models/session.py` and `services/session_manager.py`, namespace `SessionM`),
the coordinator worker (`coordinator/worker.py`, namespace `Worker`) and the
optimizer core (`optimizer/core.py`, namespace `Optimizer`).

Python floats are modelled by `ℚ`; ints by `Int`/`Nat`; `None` by `Option`;
a raised exception that a caller cannot recover from is modelled by `Except`/`Option`.
-/

namespace Boifi

/-- Observation dictionary as consumed by the boifi analyzer (a raw JSON dict:
keys may be absent, which `dict.get` turns into `None`/defaults). -/
structure Observation where
  status_code : Option Int
  latency_ms : Option ℚ
  error_rate : Option ℚ
  error_logs : List String
  deriving DecidableEq, Repr

/-- Tests `lo ≤ s < hi` on an optional status code; an absent (or `None`) status
fails the test, mirroring `if status_code and lo <= status_code < hi`. -/
def statusIn (lo hi : Int) : Option Int → Bool
  | some s => decide (lo ≤ s) && decide (s < hi)
  | none => false

/-- BugScorer.score of boifi_recommender/analyzer/service.py (lines 12-35):
5xx → 10.0; 4xx → 8.0; non-empty error_logs → 6.0; error_rate > 0 → 3.0; else 0.0. -/
def bugScore (o : Observation) : ℚ :=
  if statusIn 500 600 o.status_code then 10
  else if statusIn 400 500 o.status_code then 8
  else if !o.error_logs.isEmpty then 6
  else if 0 < o.error_rate.getD 0 then 3
  else 0

/-- PerformanceScorer.score of boifi_recommender/analyzer/service.py (lines 45-63):
missing latency → 0.0; latency ≤ baseline → 0.0; latency ≥ threshold → 9.0;
else min(10, (latency−baseline)/(threshold−baseline)·9). -/
def perfScore (baseline_ms threshold_ms : ℚ) (o : Observation) : ℚ :=
  match o.latency_ms with
  | none => 0
  | some latency =>
    if latency ≤ baseline_ms then 0
    else if latency ≥ threshold_ms then 9
    else min 10 ((latency - baseline_ms) / (threshold_ms - baseline_ms) * 9)

/-- Normalized weights computed by AnalyzerService.__init__ (lines 104-120).
The Python code divides each weight by `bug + perf + struct`; when the sum is
zero this raises `ZeroDivisionError`, modelled as `none`. -/
def mkAnalyzerWeights (bug_weight perf_weight struct_weight : ℚ) : Option (ℚ × ℚ × ℚ) :=
  let total_weight := bug_weight + perf_weight + struct_weight
  if total_weight = 0 then none
  else some (bug_weight / total_weight, perf_weight / total_weight, struct_weight / total_weight)

end Boifi

namespace Analyzer

/-- One span of a distributed trace as read by src/analyzer/service.py. -/
structure Span where
  operationName : String
  duration : ℚ
  error : Bool
  tag_error : Bool
  deriving DecidableEq, Repr

/-- Trace data: a list of spans. -/
structure TraceData where
  spans : List Span
  deriving DecidableEq, Repr

/-- RawObservation of src/types.py as the scorers can actually receive it:
dataclass type hints are not enforced at runtime, so `status_code` and
`latency_ms` may be `None` (the scorers then fail safe via `except`);
`error_rate` is validated in `__post_init__`, hence always present. -/
structure RawObservation where
  status_code : Option Int
  latency_ms : Option ℚ
  error_rate : ℚ
  logs : List String
  trace_data : Option TraceData
  deriving DecidableEq, Repr

/-- AnalyzerConfig of src/types.py: the `weights` dict may lack a key, in which
case `get_weight` falls back to 1.0 (`self.weights.get(dimension, 1.0)`). -/
structure AnalyzerConfig where
  weight_bug : Option ℚ
  weight_perf : Option ℚ
  weight_struct : Option ℚ
  baseline_latency_ms : ℚ
  threshold_latency_ms : ℚ
  baseline_trace : Option TraceData
  deriving DecidableEq, Repr

/-- The critical log keywords of BugScorer.score (line 193). -/
def criticalKeywords : List String := ["ERROR", "FATAL", "CRITICAL", "PANIC", "EXCEPTION"]

/-- Case-sensitive substring test `keyword in log`. -/
def containsSub (log keyword : String) : Bool :=
  decide (keyword.data <:+: log.data)

/-- Does a log line contain one of the critical keywords? -/
def hasCriticalKeyword (log : String) : Bool :=
  criticalKeywords.any (fun keyword => containsSub log keyword)

/-- BugScorer.score of src/analyzer/service.py (lines 168-212).
With `status_code = None` the comparison `observation.status_code >= 500`
raises `TypeError`, the surrounding `except` returns the fail-safe 0.0. -/
def bugScore (o : RawObservation) : ℚ :=
  match o.status_code with
  | none => 0
  | some s =>
    if 500 ≤ s then 10
    else if 400 ≤ s then 8
    else if o.logs.any hasCriticalKeyword then 6
    else if 0 < o.error_rate then 3
    else 0

/-- PerformanceScorer.score of src/analyzer/service.py (lines 226-270).
With `latency_ms = None` the comparison `actual > threshold` raises
`TypeError`, the surrounding `except` returns the fail-safe 0.0. -/
def perfScore (config : AnalyzerConfig) (o : RawObservation) : ℚ :=
  let baseline := config.baseline_latency_ms
  let threshold := config.threshold_latency_ms
  if baseline ≤ 0 then 0
  else
    match o.latency_ms with
    | none => 0
    | some actual =>
      if actual > threshold then 10
      else
        let score := if threshold > baseline then (actual - baseline) / (threshold - baseline) * 9 else 0
        min 10 (max 0 score)

/-- Levenshtein distance between two operation-name sequences
(StructureScorer._edit_distance, lines 431-448, stated as the standard
recurrence its dynamic program computes). -/
def editDistance : List String → List String → Nat
  | [], l2 => l2.length
  | l1, [] => l1.length
  | a :: as_, b :: bs =>
    if a = b then editDistance as_ bs
    else 1 + min (editDistance as_ (b :: bs)) (min (editDistance (a :: as_) bs) (editDistance as_ bs))
termination_by l1 l2 => l1.length + l2.length

/-- StructureScorer._check_span_count_change (lines 349-366). -/
def checkSpanCountChange (current_trace baseline_trace : TraceData) : ℚ :=
  let baseline_spans := baseline_trace.spans.length
  let current_spans := current_trace.spans.length
  if baseline_spans = 0 then 0
  else if (current_spans : ℚ) > (baseline_spans : ℚ) * (3/2) then 3
  else 0

/-- StructureScorer._check_operation_sequence_change (lines 369-389). -/
def checkOperationSequenceChange (current_trace baseline_trace : TraceData) : ℚ :=
  let baseline_ops := baseline_trace.spans.map Span.operationName
  let current_ops := current_trace.spans.map Span.operationName
  if baseline_ops.isEmpty || current_ops.isEmpty then 0
  else if editDistance baseline_ops current_ops > 2 then 5
  else 0

/-- StructureScorer._check_error_spans (lines 392-405). -/
def checkErrorSpans (current_trace : TraceData) : ℚ :=
  if current_trace.spans.any (fun s => s.error || s.tag_error) then 2 else 0

/-- StructureScorer._check_span_latency_spike (lines 408-428): the Python code
builds name→duration dicts (later spans overwrite earlier ones with the same
operation name) and fires when some common operation is > 5× slower. -/
def lastDuration (spans : List Span) (name : String) : Option ℚ :=
  (spans.filter (fun s => s.operationName = name)).getLast?.map Span.duration

/-- Latency-spike sub-check continued: iterate over current operation names. -/
def checkSpanLatencySpike (current_trace baseline_trace : TraceData) : ℚ :=
  let fires := (current_trace.spans.map Span.operationName).any (fun op =>
    match lastDuration current_trace.spans op, lastDuration baseline_trace.spans op with
    | some current_duration, some baseline_duration =>
      decide (0 < baseline_duration) && decide (current_duration / baseline_duration > 5)
    | _, _ => false)
  if fires then 2 else 0

/-- StructureScorer.score of src/analyzer/service.py (lines 285-346): the
maximum of the sub-scores that fire, capped at 10; 0 when either trace is
missing or has no spans (an empty trace dict is falsy in Python). -/
def structScore (config : AnalyzerConfig) (o : RawObservation) : ℚ :=
  match config.baseline_trace, o.trace_data with
  | some baseline_trace, some current_trace =>
    let scores := [checkSpanCountChange current_trace baseline_trace,
                   checkOperationSequenceChange current_trace baseline_trace,
                   checkErrorSpans current_trace,
                   checkSpanLatencySpike current_trace baseline_trace].filter (fun x => 0 < x)
    min 10 (scores.foldr max 0)
  | _, _ => 0

/-- AnalyzerConfig.get_weight with `fault_type = None` (src/types.py lines
217-229): `self.weights.get(dimension, 1.0)`. -/
def getWeight (w : Option ℚ) : ℚ := w.getD 1

/-- AnalyzerService.calculate_severity of src/analyzer/service.py (lines
474-533): weighted average of the three sub-scores, clamped to [0,10];
when the weights sum to zero it returns `(0.0, None)`. The breakdown is
returned as the three sub-scores. -/
def calculateSeverity (config : AnalyzerConfig) (o : RawObservation) :
    ℚ × Option (ℚ × ℚ × ℚ) :=
  let score_bug := bugScore o
  let score_perf := perfScore config o
  let score_struct := structScore config o
  let w_bug := getWeight config.weight_bug
  let w_perf := getWeight config.weight_perf
  let w_struct := getWeight config.weight_struct
  let total_weight := w_bug + w_perf + w_struct
  if total_weight = 0 then (0, none)
  else
    let total_score := (w_bug * score_bug + w_perf * score_perf + w_struct * score_struct) / total_weight
    (min 10 (max 0 total_score), some (score_bug, score_perf, score_struct))

end Analyzer

namespace SessionM

/-- Session lifecycle states (models/session.py lines 10-17). -/
inductive SessionStatus where
  | PENDING
  | RUNNING
  | STOPPING
  | COMPLETED
  | FAILED
  deriving DecidableEq, Repr

/-- A fault plan as a JSON-like dictionary (Dict[str, Any]); the values are
irrelevant to the modelled behaviour and kept as rationals. -/
abbrev FPlan := List (String × ℚ)

/-- Trial of models/session.py (lines 20-28). Timestamps are abstract ticks. -/
structure Trial where
  trial_id : Nat
  fault_plan : FPlan
  observation : Option Boifi.Observation
  severity_score : Option ℚ
  timestamp : Nat
  status : String
  deriving DecidableEq, Repr

/-- BestResult of models/session.py (lines 40-46). -/
structure BestResult where
  fault_plan : FPlan
  severity_score : ℚ
  trial_id : Nat
  timestamp : Nat
  deriving DecidableEq, Repr

/-- OptimizationSession of models/session.py (lines 58-71). -/
structure Session where
  id : String
  service_name : String
  status : SessionStatus
  search_space_config : List (String × String)
  max_trials : Nat
  trials : List Trial
  best_result : Option BestResult
  created_at : Nat
  updated_at : Nat
  started_at : Option Nat
  completed_at : Option Nat
  deriving DecidableEq, Repr

/-- best_score property (lines 81-86): 0.0 when there is no best result. -/
def bestScore (s : Session) : ℚ :=
  match s.best_result with
  | none => 0
  | some b => b.severity_score

/-- add_trial of models/session.py (lines 95-107): append the trial, refresh
`updated_at`, and replace `best_result` when the trial carries a non-null
severity score and either no best exists or the score is strictly greater.
`now` stands for `datetime.utcnow()`. -/
def addTrial (s : Session) (trial : Trial) (now : Nat) : Session :=
  let s1 := { s with trials := s.trials ++ [trial], updated_at := now }
  match trial.severity_score with
  | none => s1
  | some score =>
    match s1.best_result with
    | none =>
      { s1 with best_result := some ⟨trial.fault_plan, score, trial.trial_id, now⟩ }
    | some b =>
      if score > b.severity_score then
        { s1 with best_result := some ⟨trial.fault_plan, score, trial.trial_id, now⟩ }
      else s1

/-- transition_to_stopping (lines 121-126); raises ValueError unless RUNNING. -/
def transitionToStopping (s : Session) (now : Nat) : Except String Session :=
  if s.status = SessionStatus.RUNNING then
    Except.ok { s with status := SessionStatus.STOPPING, updated_at := now }
  else Except.error "Cannot transition to STOPPING"

/-- transition_to_completed (lines 128-134); raises ValueError unless RUNNING or STOPPING. -/
def transitionToCompleted (s : Session) (now : Nat) : Except String Session :=
  if s.status = SessionStatus.RUNNING ∨ s.status = SessionStatus.STOPPING then
    Except.ok { s with status := SessionStatus.COMPLETED, completed_at := some now, updated_at := now }
  else Except.error "Cannot transition to COMPLETED"

/-- SessionManager.stop_session of services/session_manager.py (lines 84-94):
when the session is RUNNING it calls `transition_to_stopping()` and then
`transition_to_completed()` back to back inside the same call and saves;
otherwise the session is returned unchanged. The guard makes both
transitions succeed, so the `error` fallbacks are unreachable. -/
def stopSession (s : Session) (now : Nat) : Session :=
  if s.status = SessionStatus.RUNNING then
    match transitionToStopping s now with
    | Except.ok s1 =>
      match transitionToCompleted s1 now with
      | Except.ok s2 => s2
      | Except.error _ => s1
    | Except.error _ => s
  else s

end SessionM

namespace Worker

open SessionM

/-- One scheduled loop iteration of OptimizationWorker.run (worker.py lines
47-80): the plan returned by `optimizer.propose()` and the result of
`executor_client.apply_policy(plan)` (`none` models a `None` observation). -/
abbrev Iteration := FPlan × Option Boifi.Observation

/-- The body of the `for trial_id in range(session.max_trials)` loop: on a
`None` observation the iteration is skipped (`continue`) without recording a
trial; otherwise a Trial with the loop-counter `trial_id` is appended. The
severity score is `analyzer.calculate_severity(observation)["total_score"]`,
abstracted as a scoring function `score`. -/
def runLoop (score : Boifi.Observation → ℚ) (now : Nat) (s : Session) :
    List (Nat × Iteration) → Session
  | [] => s
  | (_, _, none) :: rest => runLoop score now s rest
  | (trial_id, plan, some obs) :: rest =>
    runLoop score now
      (addTrial s ⟨trial_id, plan, some obs, some (score obs), now, "completed"⟩ now) rest

/-- The trial-recording phase of OptimizationWorker.run: iterations are
numbered 0,1,2,… by the loop counter (at most `max_trials` of them). -/
def workerTrials (score : Boifi.Observation → ℚ) (now : Nat) (s : Session)
    (iterations : List Iteration) : Session :=
  runLoop score now s (iterations.take s.max_trials).enum

end Worker

namespace Client

/-- Circuit breaker states (executor_client.py lines 14-19). -/
inductive CBState where
  | closed
  | opened
  | halfOpen
  deriving DecidableEq, Repr

/-- CircuitBreaker of executor_client.py (lines 22-30). Wall-clock times
(`time.time()`) are rationals. -/
structure CircuitBreaker where
  failure_threshold : Nat
  recovery_timeout : ℚ
  state : CBState
  failure_count : Nat
  last_failure_time : Option ℚ
  deriving DecidableEq, Repr

/-- can_attempt (lines 32-49). In the OPEN state the Python guard is
`if self.last_failure_time and time.time() - self.last_failure_time > self.recovery_timeout`,
so a falsy (absent or 0.0) trip time never admits; on admission from OPEN the
state moves to HALF_OPEN. Returns (admitted?, updated breaker). -/
def canAttempt (cb : CircuitBreaker) (now : ℚ) : Bool × CircuitBreaker :=
  match cb.state with
  | CBState.closed => (true, cb)
  | CBState.opened =>
    match cb.last_failure_time with
    | some t =>
      if t ≠ 0 ∧ now - t > cb.recovery_timeout then
        (true, { cb with state := CBState.halfOpen })
      else (false, cb)
    | none => (false, cb)
  | CBState.halfOpen => (true, cb)

/-- record_success (lines 51-58). -/
def recordSuccess (cb : CircuitBreaker) : CircuitBreaker :=
  match cb.state with
  | CBState.halfOpen => { cb with state := CBState.closed, failure_count := 0 }
  | CBState.closed => { cb with failure_count := 0 }
  | CBState.opened => cb

/-- record_failure (lines 60-69): increment the count, stamp the time, and
open the breaker once the count reaches the threshold. -/
def recordFailure (cb : CircuitBreaker) (now : ℚ) : CircuitBreaker :=
  let cb1 := { cb with failure_count := cb.failure_count + 1, last_failure_time := some now }
  if cb1.failure_count ≥ cb1.failure_threshold then { cb1 with state := CBState.opened }
  else cb1

/-- `k` consecutive record_failure calls, all stamped at time `t`. -/
def iterFail (k : Nat) (t : ℚ) (cb : CircuitBreaker) : CircuitBreaker :=
  match k with
  | 0 => cb
  | k + 1 => recordFailure (iterFail k t cb) t

/-- What one network attempt inside apply_policy can come back with:
an HTTP response with a status code (the body matters only on 200),
an `httpx.TimeoutException`/`ConnectError`, or any other exception
(e.g. a 200 whose body fails to parse as JSON). -/
inductive Attempt where
  | response (code : Int) (body : Boifi.Observation)
  | netError
  | exn
  deriving DecidableEq, Repr

/-- Retry/backoff configuration of ExecutorClient.__init__ (lines 75-91). -/
structure ClientCfg where
  max_retries : Nat
  base_delay : ℚ
  max_delay : ℚ
  deriving DecidableEq, Repr

/-- _delay_with_backoff's deterministic delay (line 163):
`min(max_delay, base_delay * 2 ** attempt)`; the random symmetric jitter added
around it is not modelled. -/
def backoffDelay (cfg : ClientCfg) (attempt : Nat) : ℚ :=
  min cfg.max_delay (cfg.base_delay * 2 ^ attempt)

/-- Result of one apply_policy call: the returned observation (or `None`), the
breaker afterwards, the backoff sleeps performed, and how many network
attempts were actually made. -/
structure ApplyResult where
  result : Option Boifi.Observation
  breaker : CircuitBreaker
  sleeps : List ℚ
  attemptsMade : Nat
  deriving DecidableEq, Repr

/-- The `for attempt in range(self.max_retries)` loop of apply_policy (lines
99-140), from loop index `i` with `fuel` iterations left and the given
per-attempt outcomes: 200 → record_success and return the body; status ≥ 500 →
backoff sleep and retry (no breaker update); any other status → record_failure
and return None; timeout/connect error → record_failure, backoff sleep, retry;
other exception → record_failure and return None; fuel exhausted → None. -/
def applyFrom (cfg : ClientCfg) (now : ℚ) (i : Nat) :
    Nat → List Attempt → CircuitBreaker → ApplyResult
  | 0, _, cb => ⟨none, cb, [], 0⟩
  | _ + 1, [], cb => ⟨none, cb, [], 0⟩
  | fuel + 1, attempt :: rest, cb =>
    match attempt with
    | Attempt.response code body =>
      if code = 200 then ⟨some body, recordSuccess cb, [], 1⟩
      else if 500 ≤ code then
        let r := applyFrom cfg now (i + 1) fuel rest cb
        ⟨r.result, r.breaker, backoffDelay cfg i :: r.sleeps, r.attemptsMade + 1⟩
      else ⟨none, recordFailure cb now, [], 1⟩
    | Attempt.netError =>
      let r := applyFrom cfg now (i + 1) fuel rest (recordFailure cb now)
      ⟨r.result, r.breaker, backoffDelay cfg i :: r.sleeps, r.attemptsMade + 1⟩
    | Attempt.exn => ⟨none, recordFailure cb now, [], 1⟩

/-- apply_policy (lines 93-140): first consult the circuit breaker; when it
refuses, return None without any network attempt; otherwise run the retry
loop over at most `max_retries` attempts. -/
def applyPolicy (cfg : ClientCfg) (now : ℚ) (outs : List Attempt)
    (cb : CircuitBreaker) : ApplyResult :=
  match canAttempt cb now with
  | (false, cb1) => ⟨none, cb1, [], 0⟩
  | (true, cb1) => applyFrom cfg now 0 cfg.max_retries outs cb1

/-- An attempt outcome the loop retries on: HTTP 5xx or a timeout/connect error. -/
def retryable : Attempt → Bool
  | Attempt.response code _ => decide (500 ≤ code)
  | Attempt.netError => true
  | Attempt.exn => false

/-- An attempt outcome the loop treats as a permanent failure: a response with
status other than 200 and below 500, or a non-transport exception. -/
def permanent : Attempt → Bool
  | Attempt.response code _ => decide (code ≠ 200 ∧ code < 500)
  | Attempt.netError => false
  | Attempt.exn => true

/-- The first outcome among the first `n` attempts that the loop would not
retry on (the attempt at which apply_policy returns). -/
def firstDecisive (n : Nat) (outs : List Attempt) : Option Attempt :=
  (outs.take n).find? (fun a => !retryable a)

end Client

namespace Optimizer

/-- Which branch OptimizerCore.propose takes (optimizer/core.py lines
223-259): a uniform random initial point, or surrogate-model + Expected
Improvement selection. The numeric payloads (numpy sampling, random-forest
prediction, EI argmax) are abstracted; the branch condition is the code's
`if len(self.observation_history_y) == 0`. -/
inductive ProposalPath where
  | initialRandom
  | surrogateEI
  deriving DecidableEq, Repr

/-- The branch decision of OptimizerCore.propose on the recorded score
history. -/
def proposePath (observation_history_y : List ℚ) : ProposalPath :=
  if observation_history_y.length = 0 then ProposalPath.initialRandom
  else ProposalPath.surrogateEI

/-- Settings.OPTIMIZER_INITIAL_POINTS (config.py line 23). -/
def OPTIMIZER_INITIAL_POINTS : Nat := 5

end Optimizer

section Claims

open SessionM Worker Client Optimizer

/-- C7 counterexample: with all three weights zero, the boifi_recommender
AnalyzerService cannot even be constructed — the weight normalization in
`__init__` divides by the zero sum (ZeroDivisionError, modelled as `none`) —
so computing the severity score does not succeed there. -/
theorem claim_C7_counterexample : Boifi.mkAnalyzerWeights 0 0 0 = none := by
  norm_num [Boifi.mkAnalyzerWeights]

/-- C7 (amended): with w_bug = w_perf = w_struct = 0, the src/analyzer
service's calculate_severity succeeds and returns total 0 with no breakdown,
for every observation and any baseline/threshold/trace; the
boifi_recommender service instead fails at construction (division by the
zero weight sum). -/
theorem claim_C7_amended (b t : ℚ) (tr : Option Analyzer.TraceData)
    (o : Analyzer.RawObservation) :
    Analyzer.calculateSeverity ⟨some 0, some 0, some 0, b, t, tr⟩ o = (0, none) ∧
    Boifi.mkAnalyzerWeights 0 0 0 = none := by
  refine ⟨?_, by norm_num [Boifi.mkAnalyzerWeights]⟩
  simp [Analyzer.calculateSeverity, Analyzer.getWeight]

/-- C8 counterexample: with exactly one recorded trial — fewer than the
configured cold-start size of 5 — propose() already takes the
surrogate-guided branch, not a uniform random sample. -/
theorem claim_C8_counterexample :
    Optimizer.proposePath [7] = Optimizer.ProposalPath.surrogateEI ∧
    Optimizer.proposePath [7] ≠ Optimizer.ProposalPath.initialRandom ∧
    [(7 : ℚ)].length < Optimizer.OPTIMIZER_INITIAL_POINTS := by decide

/-- C8 (amended): propose() returns a uniform random sample exactly when the
recorded history is empty; any non-empty history — even a single trial —
already triggers surrogate-guided Expected-Improvement selection. The
configured OPTIMIZER_INITIAL_POINTS (5) is never consulted by the optimizer
core. -/
theorem claim_C8_amended (observation_history_y : List ℚ) :
    Optimizer.proposePath observation_history_y = Optimizer.ProposalPath.initialRandom ↔
      observation_history_y = [] := by
  cases observation_history_y <;> simp [Optimizer.proposePath]

/-- C2 counterexample: baseline 100, threshold 500, actual latency exactly 500
(so A ≥ T with T > B): the src/analyzer PerformanceScorer returns 9.0, not the
claimed 10.0, because the code's threshold test is strict (`actual > threshold`). -/
theorem claim_C2_counterexample :
    (100 : ℚ) < 500 ∧
    Analyzer.perfScore ⟨some 1, some 1, some 1, 100, 500, none⟩
      ⟨some 200, some 500, 0, [], none⟩ = 9 ∧
    Analyzer.perfScore ⟨some 1, some 1, some 1, 100, 500, none⟩
      ⟨some 200, some 500, 0, [], none⟩ ≠ 10 := by
  refine ⟨by norm_num, ?_, ?_⟩ <;> norm_num [Analyzer.perfScore]

/-- C2 (amended): for the src/analyzer PerformanceScorer with T > B:
Score_Perf is 0.0 when the actual latency is missing or B ≤ 0; 10.0 when
A > T strictly; and for A ≤ T it is clamp(0, 10, (A − B)/(T − B)·9.0) — in
particular 9.0, not 10.0, at A = T. -/
theorem claim_C2_amended (config : Analyzer.AnalyzerConfig)
    (o : Analyzer.RawObservation)
    (hBT : config.baseline_latency_ms < config.threshold_latency_ms) :
    (o.latency_ms = none → Analyzer.perfScore config o = 0) ∧
    (config.baseline_latency_ms ≤ 0 → Analyzer.perfScore config o = 0) ∧
    (∀ a, o.latency_ms = some a → 0 < config.baseline_latency_ms →
      (config.threshold_latency_ms < a → Analyzer.perfScore config o = 10) ∧
      (a ≤ config.threshold_latency_ms →
        Analyzer.perfScore config o =
          min 10 (max 0 ((a - config.baseline_latency_ms) /
            (config.threshold_latency_ms - config.baseline_latency_ms) * 9)))) := by
  unfold Analyzer.perfScore
  refine ⟨?_, ?_, ?_⟩
  · intro h
    rcases le_or_lt config.baseline_latency_ms 0 with hb | hb
    · simp [hb]
    · simp [h, not_le.mpr hb]
  · intro h
    simp [h]
  · intro a ha hb
    constructor
    · intro hlt
      simp [ha, not_le.mpr hb, hlt]
    · intro hle
      simp [ha, not_le.mpr hb, not_lt.mpr hle, hBT, min_comm, max_comm]

/-- C2 witness: instantiating the amended theorem at baseline 100,
threshold 500, actual latency 600 gives Score_Perf = 10. -/
theorem claim_C2_witness :
    Analyzer.perfScore ⟨some 1, some 1, some 1, 100, 500, none⟩
      ⟨some 200, some 600, 0, [], none⟩ = 10 :=
  ((claim_C2_amended ⟨some 1, some 1, some 1, 100, 500, none⟩
      ⟨some 200, some 600, 0, [], none⟩ (by norm_num)).2.2 600 rfl
    (by norm_num)).1 (by norm_num)

/-- C9 counterexample: an observation with no status code, error_rate 0 and a
single log line containing none of the critical keywords: the boifi
BugScorer (which the claim cites) returns 6.0 anyway, because it only tests
that error_logs is non-empty — contradicting the claim that such logs do not
trigger the 6.0 rule. -/
theorem claim_C9_counterexample :
    Boifi.bugScore ⟨none, none, some 0, ["all good here"]⟩ = 6 ∧
    (["all good here"].any Analyzer.hasCriticalKeyword) = false := by
  constructor
  · norm_num [Boifi.bugScore, Boifi.statusIn]
  · decide

/-- C9 (amended): in the src/analyzer BugScorer, for an observation whose
status code is present and below 400, Score_Bug is 6.0 exactly when some log
line contains one of the case-sensitive keywords ERROR, FATAL, CRITICAL,
PANIC, EXCEPTION (the keyword rule beating the error_rate rule, per the
ladder); with the status code absent that scorer fails safe to 0.0. In the
boifi_recommender BugScorer, with status absent or below 400, Score_Bug is
6.0 exactly when error_logs is non-empty, regardless of log content. -/
theorem claim_C9_amended :
    (∀ (o : Analyzer.RawObservation) (s : Int), o.status_code = some s → s < 400 →
      (Analyzer.bugScore o = 6 ↔ o.logs.any Analyzer.hasCriticalKeyword = true)) ∧
    (∀ o : Analyzer.RawObservation, o.status_code = none → Analyzer.bugScore o = 0) ∧
    (∀ o : Boifi.Observation,
      (o.status_code = none ∨ ∃ s, o.status_code = some s ∧ s < 400) →
      (Boifi.bugScore o = 6 ↔ o.error_logs ≠ [])) := by
  refine ⟨?_, ?_, ?_⟩
  · intro o s hs h400
    have h5 : ¬ (500 ≤ s) := by omega
    have h4 : ¬ (400 ≤ s) := by omega
    by_cases hk : o.logs.any Analyzer.hasCriticalKeyword
    · simp [Analyzer.bugScore, hs, h5, h4, hk]
    · by_cases he : 0 < o.error_rate <;>
        simp [Analyzer.bugScore, hs, h5, h4, hk, he]
  · intro o h
    simp [Analyzer.bugScore, h]
  · intro o hst
    have h5 : Boifi.statusIn 500 600 o.status_code = false := by
      rcases hst with h | ⟨s, hs, hlt⟩
      · simp [Boifi.statusIn, h]
      · simp [Boifi.statusIn, hs]; omega
    have h4 : Boifi.statusIn 400 500 o.status_code = false := by
      rcases hst with h | ⟨s, hs, hlt⟩
      · simp [Boifi.statusIn, h]
      · simp [Boifi.statusIn, hs]; omega
    by_cases hl : o.error_logs = []
    · by_cases he : 0 < o.error_rate.getD 0 <;>
        simp [Boifi.bugScore, h5, h4, hl, he]
    · simp [Boifi.bugScore, h5, h4, hl]

/-- C9 witness: instantiating the amended theorem — a 200-status observation
with a FATAL log scores 6.0 in the src/analyzer scorer; an absent status
scores 0.0 there; the boifi scorer scores 6.0 on a keyword-free log. -/
theorem claim_C9_witness :
    Analyzer.bugScore ⟨some 200, some 100, 0, ["a FATAL error"], none⟩ = 6 ∧
    Analyzer.bugScore ⟨none, some 100, 0, ["a FATAL error"], none⟩ = 0 ∧
    Boifi.bugScore ⟨some 200, none, some 0, ["looks fine"]⟩ = 6 :=
  ⟨(claim_C9_amended.1 ⟨some 200, some 100, 0, ["a FATAL error"], none⟩ 200 rfl
      (by norm_num)).mpr (by decide),
   claim_C9_amended.2.1 ⟨none, some 100, 0, ["a FATAL error"], none⟩ rfl,
   (claim_C9_amended.2.2 ⟨some 200, none, some 0, ["looks fine"]⟩
      (Or.inr ⟨200, rfl, by norm_num⟩)).mpr (by decide)⟩

/-- C10: appending a trial with a null severity score changes only the trials
list and updated_at (best_result untouched); an existing best_result is
replaced only by a strictly greater non-null score; and under the model
constraint severity_score ≥ 0 (the pydantic `ge=0.0` bound on Trial),
best_score never decreases across add_trial. -/
theorem claim_C10_add_trial (s : SessionM.Session) (t : SessionM.Trial) (now : Nat)
    (hnn : ∀ sc, t.severity_score = some sc → 0 ≤ sc) :
    (t.severity_score = none →
      SessionM.addTrial s t now =
        { s with trials := s.trials ++ [t], updated_at := now }) ∧
    (∀ b, s.best_result = some b →
      (SessionM.addTrial s t now).best_result ≠ s.best_result →
      ∃ sc, t.severity_score = some sc ∧ b.severity_score < sc) ∧
    SessionM.bestScore s ≤ SessionM.bestScore (SessionM.addTrial s t now) := by
  refine ⟨?_, ?_, ?_⟩
  · intro h
    simp [SessionM.addTrial, h]
  · intro b hb hne
    rcases h : t.severity_score with _ | sc
    · exact absurd (by simp [SessionM.addTrial, h]) hne
    · by_cases hlt : b.severity_score < sc
      · exact ⟨sc, rfl, hlt⟩
      · exact absurd (by simp [SessionM.addTrial, h, hb, hlt]) hne
  · rcases h : t.severity_score with _ | sc
    · cases hb : s.best_result <;> simp [SessionM.addTrial, h, hb, SessionM.bestScore]
    · rcases hb : s.best_result with _ | b
      · simpa [SessionM.addTrial, h, hb, SessionM.bestScore] using hnn sc h
      · by_cases hlt : b.severity_score < sc
        · simp [SessionM.addTrial, h, hb, hlt, SessionM.bestScore, le_of_lt hlt]
        · simp [SessionM.addTrial, h, hb, hlt, SessionM.bestScore]

/-- C10 witness: instantiating the theorem at a session holding a best of 5.0
and a new trial with a null score — the session is unchanged except for the
appended trial and updated_at, and best_score does not decrease. -/
theorem claim_C10_witness :
    (SessionM.addTrial
        ⟨"s1", "svc", SessionM.SessionStatus.RUNNING, [], 10, [],
          some ⟨[], 5, 0, 1⟩, 0, 1, some 0, none⟩
        ⟨1, [], none, none, 2, "completed"⟩ 2 =
      { (⟨"s1", "svc", SessionM.SessionStatus.RUNNING, [], 10, [],
          some ⟨[], 5, 0, 1⟩, 0, 1, some 0, none⟩ : SessionM.Session) with
        trials := [] ++ [⟨1, [], none, none, 2, "completed"⟩], updated_at := 2 }) ∧
    SessionM.bestScore
        ⟨"s1", "svc", SessionM.SessionStatus.RUNNING, [], 10, [],
          some ⟨[], 5, 0, 1⟩, 0, 1, some 0, none⟩ ≤
      SessionM.bestScore
        (SessionM.addTrial
          ⟨"s1", "svc", SessionM.SessionStatus.RUNNING, [], 10, [],
            some ⟨[], 5, 0, 1⟩, 0, 1, some 0, none⟩
          ⟨1, [], none, none, 2, "completed"⟩ 2) :=
  ⟨(claim_C10_add_trial _ _ 2 (fun sc h => by simp at h)).1 rfl,
   (claim_C10_add_trial _ _ 2 (fun sc h => by simp at h)).2.2⟩

/-- C3 counterexample: on a RUNNING session, stop_session leaves the session
COMPLETED — not STOPPING — already inside the stop() call itself, because it
invokes transition_to_stopping() and transition_to_completed() back to back. -/
theorem claim_C3_counterexample :
    (SessionM.stopSession
        ⟨"s1", "svc", SessionM.SessionStatus.RUNNING, [], 10, [], none, 0, 0, some 0, none⟩
        7).status = SessionM.SessionStatus.COMPLETED ∧
    (SessionM.stopSession
        ⟨"s1", "svc", SessionM.SessionStatus.RUNNING, [], 10, [], none, 0, 0, some 0, none⟩
        7).status ≠ SessionM.SessionStatus.STOPPING := by
  constructor <;>
    simp [SessionM.stopSession, SessionM.transitionToStopping, SessionM.transitionToCompleted]

/-- C3 (amended): stop() on a RUNNING session moves it through STOPPING and
directly on to COMPLETED synchronously inside the same stop_session call
(stamping completed_at and updated_at); the worker's stop flag is never set
by stop_session, and the worker plays no part in completing the session. On
a non-RUNNING session, stop() is a no-op. -/
theorem claim_C3_amended (s : SessionM.Session) (now : Nat) :
    (s.status = SessionM.SessionStatus.RUNNING →
      SessionM.stopSession s now =
        { s with status := SessionM.SessionStatus.COMPLETED,
                 completed_at := some now, updated_at := now }) ∧
    (s.status ≠ SessionM.SessionStatus.RUNNING → SessionM.stopSession s now = s) := by
  constructor
  · intro h
    simp [SessionM.stopSession, SessionM.transitionToStopping,
      SessionM.transitionToCompleted, h]
  · intro h
    simp [SessionM.stopSession, h]

/-- C3 witness: instantiating the amended theorem on a concrete RUNNING
session and a concrete PENDING session. -/
theorem claim_C3_witness :
    SessionM.stopSession
        ⟨"s2", "svc", SessionM.SessionStatus.RUNNING, [], 10, [], none, 0, 0, some 0, none⟩ 9 =
      { (⟨"s2", "svc", SessionM.SessionStatus.RUNNING, [], 10, [], none, 0, 0, some 0,
          none⟩ : SessionM.Session) with
        status := SessionM.SessionStatus.COMPLETED, completed_at := some 9,
        updated_at := 9 } ∧
    SessionM.stopSession
        ⟨"s3", "svc", SessionM.SessionStatus.PENDING, [], 10, [], none, 0, 0, none, none⟩ 9 =
      ⟨"s3", "svc", SessionM.SessionStatus.PENDING, [], 10, [], none, 0, 0, none, none⟩ :=
  ⟨(claim_C3_amended _ 9).1 rfl, (claim_C3_amended _ 9).2 (by decide)⟩

/-- add_trial always appends exactly the given trial to the trials list. -/
lemma addTrial_trials (s : SessionM.Session) (t : SessionM.Trial) (now : Nat) :
    (SessionM.addTrial s t now).trials = s.trials ++ [t] := by
  unfold SessionM.addTrial
  cases t.severity_score with
  | none => rfl
  | some sc =>
    cases s.best_result with
    | none => rfl
    | some b =>
      dsimp only
      split <;> rfl

/-- The trials recorded by the worker loop: one per iteration whose executor
outcome is an observation, carrying that iteration's loop counter. -/
lemma runLoop_trials (score : Boifi.Observation → ℚ) (now : Nat) :
    ∀ (iters : List (Nat × Worker.Iteration)) (s : SessionM.Session),
      (Worker.runLoop score now s iters).trials =
        s.trials ++ iters.filterMap (fun x =>
          x.2.2.map (fun obs =>
            (⟨x.1, x.2.1, some obs, some (score obs), now, "completed"⟩ : SessionM.Trial)))
  | [], s => by simp [Worker.runLoop]
  | (i, p, none) :: rest, s => by
    simp [Worker.runLoop, runLoop_trials score now rest s]
  | (i, p, some obs) :: rest, s => by
    simp [Worker.runLoop, runLoop_trials score now rest _, addTrial_trials]

/-- A filterMap whose function is an if-guard is a filter followed by a map. -/
lemma filterMap_guard {α β : Type} (p : α → Bool) (f : α → β) :
    ∀ l : List α,
      l.filterMap (fun a => if p a then some (f a) else none) = (l.filter p).map f
  | [] => rfl
  | a :: l => by
    by_cases h : p a <;>
      simp [List.filterMap_cons, List.filter_cons, h, filterMap_guard p f l]

/-- C1 (amended): each trial recorded by the worker carries the loop counter
of the iteration that produced it: starting from a session with no trials,
the recorded trial ids are exactly the indices of the iterations whose
executor call returned an observation, in order — strictly increasing, but
not necessarily contiguous, because an iteration whose executor call returns
null records no trial yet still consumes its loop index. -/
theorem claim_C1_amended (score : Boifi.Observation → ℚ) (now : Nat)
    (s : SessionM.Session) (iterations : List Worker.Iteration)
    (h : s.trials = []) :
    (Worker.workerTrials score now s iterations).trials.map SessionM.Trial.trial_id =
      ((iterations.take s.max_trials).enum.filter (fun x => x.2.2.isSome)).map
        Prod.fst ∧
    List.Pairwise (· < ·)
      ((Worker.workerTrials score now s iterations).trials.map
        SessionM.Trial.trial_id) := by
  have hmap : (Worker.workerTrials score now s iterations).trials.map
      SessionM.Trial.trial_id =
      ((iterations.take s.max_trials).enum.filter (fun x => x.2.2.isSome)).map
        Prod.fst := by
    unfold Worker.workerTrials
    rw [runLoop_trials, h, List.nil_append, List.map_filterMap]
    have hfg : (fun x : Nat × Worker.Iteration =>
        (x.2.2.map (fun obs =>
          (⟨x.1, x.2.1, some obs, some (score obs), now,
            "completed"⟩ : SessionM.Trial))).map SessionM.Trial.trial_id) =
        fun x : Nat × Worker.Iteration =>
          if x.2.2.isSome then some x.1 else none := by
      funext x
      rcases x with ⟨i, p, _ | obs⟩ <;> rfl
    rw [hfg, filterMap_guard]
  refine ⟨hmap, ?_⟩
  rw [hmap, List.pairwise_map]
  have henum : ((iterations.take s.max_trials).enum).Pairwise
      (fun a b => a.1 < b.1) := by
    have hr := List.pairwise_lt_range (iterations.take s.max_trials).length
    rw [← List.enum_map_fst (iterations.take s.max_trials), List.pairwise_map] at hr
    exact hr
  exact henum.filter _

/-- C1 counterexample: max_trials = 2; the executor returns null on iteration
0 and an observation on iteration 1. The single recorded trial — the 0th
trial appended to the session — has trial_id 1, not 0: the failed iteration
advanced the numbering. -/
theorem claim_C1_counterexample :
    ((Worker.workerTrials (fun _ => 5) 3
        ⟨"c1", "svc", SessionM.SessionStatus.RUNNING, [], 2, [], none, 0, 0,
          some 0, none⟩
        [([], none), ([], some ⟨some 200, none, some 0, []⟩)]).trials.map
      SessionM.Trial.trial_id) = [1] ∧ (1 : Nat) ≠ 0 :=
  ⟨rfl, by decide⟩

/-- C1 witness: instantiating the amended theorem on a two-iteration run whose
first executor call fails. -/
theorem claim_C1_witness :
    ((Worker.workerTrials (fun _ => 5) 3
        ⟨"c2", "svc", SessionM.SessionStatus.RUNNING, [], 2, [], none, 0, 0,
          some 0, none⟩
        [([], none), ([], some ⟨some 200, none, some 0, []⟩)]).trials.map
      SessionM.Trial.trial_id =
      (([(([] : SessionM.FPlan), (none : Option Boifi.Observation)),
         ([], some ⟨some 200, none, some 0, []⟩)].take 2).enum.filter
        (fun x => x.2.2.isSome)).map Prod.fst) ∧
    List.Pairwise (· < ·)
      ((Worker.workerTrials (fun _ => 5) 3
        ⟨"c2", "svc", SessionM.SessionStatus.RUNNING, [], 2, [], none, 0, 0,
          some 0, none⟩
        [([], none), ([], some ⟨some 200, none, some 0, []⟩)]).trials.map
        SessionM.Trial.trial_id) :=
  claim_C1_amended (fun _ => 5) 3
    ⟨"c2", "svc", SessionM.SessionStatus.RUNNING, [], 2, [], none, 0, 0,
      some 0, none⟩
    [([], none), ([], some ⟨some 200, none, some 0, []⟩)] rfl

/-- iterFail commutes with a leading record_failure at the same timestamp. -/
lemma iterFail_recordFailure (t : ℚ) :
    ∀ (k : Nat) (cb : Client.CircuitBreaker),
      Client.iterFail k t (Client.recordFailure cb t) =
        Client.recordFailure (Client.iterFail k t cb) t
  | 0, cb => rfl
  | k + 1, cb => by
    simp [Client.iterFail, iterFail_recordFailure t k cb]

/-- A run of nothing but 5xx responses: the loop sleeps the backoff schedule
and retries until attempts or fuel run out, returns None, and leaves the
circuit breaker exactly as it was — no failure is recorded. -/
lemma applyFrom_all_5xx (cfg : Client.ClientCfg) (now : ℚ) (code : Int)
    (body : Boifi.Observation) (h5 : 500 ≤ code) :
    ∀ (fuel m i : Nat) (cb : Client.CircuitBreaker),
      Client.applyFrom cfg now i fuel
          (List.replicate m (Client.Attempt.response code body)) cb =
        ⟨none, cb, (List.range' i (min fuel m)).map (Client.backoffDelay cfg),
          min fuel m⟩
  | 0, m, i, cb => by simp [Client.applyFrom]
  | fuel + 1, 0, i, cb => by simp [Client.applyFrom]
  | fuel + 1, m + 1, i, cb => by
    have hne : code ≠ 200 := by omega
    simp [List.replicate, Client.applyFrom, hne, h5, Nat.succ_min_succ,
      List.range'_succ, applyFrom_all_5xx cfg now code body h5 fuel m (i + 1) cb]

/-- A run of nothing but timeouts/connection errors: the loop sleeps the same
backoff schedule and retries, but records one breaker failure per attempt. -/
lemma applyFrom_all_netError (cfg : Client.ClientCfg) (now : ℚ) :
    ∀ (fuel m i : Nat) (cb : Client.CircuitBreaker),
      Client.applyFrom cfg now i fuel
          (List.replicate m Client.Attempt.netError) cb =
        ⟨none, Client.iterFail (min fuel m) now cb,
          (List.range' i (min fuel m)).map (Client.backoffDelay cfg), min fuel m⟩
  | 0, m, i, cb => by simp [Client.applyFrom, Client.iterFail]
  | fuel + 1, 0, i, cb => by simp [Client.applyFrom, Client.iterFail]
  | fuel + 1, m + 1, i, cb => by
    simp [List.replicate, Client.applyFrom, Nat.succ_min_succ, List.range'_succ,
      applyFrom_all_netError cfg now fuel m (i + 1) (Client.recordFailure cb now),
      Client.iterFail, iterFail_recordFailure]

/-- C5 counterexample: a 503 followed by a 200: apply() retries and succeeds
after one backoff sleep, but the circuit breaker's consecutive-failure count
is still 0 — the 5xx was not counted toward the breaker, contrary to the
claim that the count increases. -/
theorem claim_C5_counterexample :
    (Client.applyPolicy ⟨5, 1/2, 8⟩ 1000
        [Client.Attempt.response 503 ⟨some 503, none, some 1, []⟩,
         Client.Attempt.response 200 ⟨some 200, none, some 0, []⟩]
        ⟨5, 60, Client.CBState.closed, 0, none⟩).breaker.failure_count = 0 ∧
    (Client.applyPolicy ⟨5, 1/2, 8⟩ 1000
        [Client.Attempt.response 503 ⟨some 503, none, some 1, []⟩,
         Client.Attempt.response 200 ⟨some 200, none, some 0, []⟩]
        ⟨5, 60, Client.CBState.closed, 0, none⟩).result =
      some ⟨some 200, none, some 0, []⟩ ∧
    (Client.applyPolicy ⟨5, 1/2, 8⟩ 1000
        [Client.Attempt.response 503 ⟨some 503, none, some 1, []⟩,
         Client.Attempt.response 200 ⟨some 200, none, some 0, []⟩]
        ⟨5, 60, Client.CBState.closed, 0, none⟩).sleeps = [1/2] := by
  refine ⟨?_, ?_, ?_⟩ <;>
    norm_num [Client.applyPolicy, Client.canAttempt, Client.applyFrom,
      Client.recordSuccess, Client.backoffDelay]

/-- C5 (amended): on an HTTP 5xx the client does retry with exponential
backoff — each 5xx attempt at loop index i sleeps min(max_delay,
base_delay·2^i) and continues — but the failure is NOT counted toward the
circuit breaker: an apply() whose attempts are all 5xx returns null with the
breaker exactly unchanged, whereas the same run of timeouts/connection
errors records one breaker failure per attempt. -/
theorem claim_C5_amended (cfg : Client.ClientCfg) (now : ℚ) (code : Int)
    (body : Boifi.Observation) (m : Nat) (cb : Client.CircuitBreaker)
    (h5 : 500 ≤ code) (hcb : cb.state = Client.CBState.closed) :
    Client.applyPolicy cfg now
        (List.replicate m (Client.Attempt.response code body)) cb =
      ⟨none, cb, (List.range' 0 (min cfg.max_retries m)).map
        (Client.backoffDelay cfg), min cfg.max_retries m⟩ ∧
    Client.applyPolicy cfg now (List.replicate m Client.Attempt.netError) cb =
      ⟨none, Client.iterFail (min cfg.max_retries m) now cb,
        (List.range' 0 (min cfg.max_retries m)).map (Client.backoffDelay cfg),
        min cfg.max_retries m⟩ := by
  have hca : Client.canAttempt cb now = (true, cb) := by
    simp [Client.canAttempt, hcb]
  constructor <;>
    simp [Client.applyPolicy, hca, applyFrom_all_5xx cfg now code body h5,
      applyFrom_all_netError]

/-- C5 witness: two 503 responses with max_retries 5: both are retried (after
backoff sleeps 1/2 and 1), None is returned, and the breaker is unchanged. -/
theorem claim_C5_witness :
    Client.applyPolicy ⟨5, 1/2, 8⟩ 1000
        (List.replicate 2 (Client.Attempt.response 503 ⟨some 503, none, some 1, []⟩))
        ⟨5, 60, Client.CBState.closed, 0, none⟩ =
      ⟨none, ⟨5, 60, Client.CBState.closed, 0, none⟩, [1/2, 1], 2⟩ := by
  have h := (claim_C5_amended ⟨5, 1/2, 8⟩ 1000 503 ⟨some 503, none, some 1, []⟩ 2
    ⟨5, 60, Client.CBState.closed, 0, none⟩ (by norm_num) rfl).1
  rw [h]
  norm_num [Client.backoffDelay, List.range']

/-- Characterization of when the retry loop returns None: either every
attempt within the fuel budget is retryable (retries exhausted), or the first
non-retryable outcome is a permanent failure rather than a 200. -/
lemma applyFrom_result_none_iff (cfg : Client.ClientCfg) (now : ℚ) :
    ∀ (fuel : Nat) (outs : List Client.Attempt) (i : Nat)
      (cb : Client.CircuitBreaker),
      ((Client.applyFrom cfg now i fuel outs cb).result = none ↔
        (∀ a ∈ outs.take fuel, Client.retryable a = true) ∨
        (∃ a, Client.firstDecisive fuel outs = some a ∧ Client.permanent a = true))
  | 0, outs, i, cb => by
    simp [Client.applyFrom]
  | fuel + 1, [], i, cb => by
    simp [Client.applyFrom, Client.firstDecisive]
  | fuel + 1, a :: rest, i, cb => by
    rcases a with ⟨code, body⟩ | _ | _
    · by_cases h200 : code = 200
      · simp [Client.applyFrom, Client.firstDecisive, Client.retryable,
          Client.permanent, h200]
      · by_cases h5 : 500 ≤ code
        · simpa [Client.applyFrom, Client.firstDecisive, Client.retryable, h200, h5]
            using applyFrom_result_none_iff cfg now fuel rest (i + 1) cb
        · have hlt : code < 500 := by omega
          simp [Client.applyFrom, Client.firstDecisive, Client.retryable,
            Client.permanent, h200, h5, hlt]
    · simpa [Client.applyFrom, Client.firstDecisive, Client.retryable]
        using applyFrom_result_none_iff cfg now fuel rest (i + 1)
          (Client.recordFailure cb now)
    · simp [Client.applyFrom, Client.firstDecisive, Client.retryable,
        Client.permanent]

/-- C4 counterexample: the circuit breaker is closed, the very first attempt
receives an HTTP 302 — not a 4xx, not a 5xx — and apply() returns null after
a single attempt, with max_retries = 5 far from exhausted: null is returned
in a case the claim does not allow. -/
theorem claim_C4_counterexample :
    (Client.applyPolicy ⟨5, 1/2, 8⟩ 1000
        [Client.Attempt.response 302 ⟨some 302, none, some 0, []⟩]
        ⟨5, 60, Client.CBState.closed, 0, none⟩).result = none ∧
    (Client.applyPolicy ⟨5, 1/2, 8⟩ 1000
        [Client.Attempt.response 302 ⟨some 302, none, some 0, []⟩]
        ⟨5, 60, Client.CBState.closed, 0, none⟩).attemptsMade = 1 ∧
    (1 : Nat) < 5 ∧
    ¬ (400 ≤ (302 : Int) ∧ (302 : Int) < 500) := by
  refine ⟨?_, ?_, by decide, by decide⟩ <;>
    simp [Client.applyPolicy, Client.canAttempt, Client.applyFrom,
      Client.recordFailure]

/-- C4 (amended): apply(plan) returns an Observation or null. When the
breaker refuses the call, null is returned with no network attempt made.
When the breaker admits it, null is returned exactly when either every one
of the first max_retries attempt outcomes is retryable (HTTP 5xx or a
timeout/connection error — retries exhausted) or the first non-retryable
outcome is a permanent failure — a response with status other than 200 and
below 500 (including but not limited to 4xx), or a non-transport exception —
rather than a 200. -/
theorem claim_C4_amended (cfg : Client.ClientCfg) (now : ℚ)
    (outs : List Client.Attempt) (cb : Client.CircuitBreaker) :
    ((Client.canAttempt cb now).1 = false →
      Client.applyPolicy cfg now outs cb =
        ⟨none, (Client.canAttempt cb now).2, [], 0⟩) ∧
    ((Client.canAttempt cb now).1 = true →
      ((Client.applyPolicy cfg now outs cb).result = none ↔
        (∀ a ∈ outs.take cfg.max_retries, Client.retryable a = true) ∨
        (∃ a, Client.firstDecisive cfg.max_retries outs = some a ∧
          Client.permanent a = true))) := by
  constructor
  · intro h
    unfold Client.applyPolicy
    rcases hca : Client.canAttempt cb now with ⟨b, cb1⟩
    rw [hca] at h
    cases b
    · simp
    · simp at h
  · intro h
    unfold Client.applyPolicy
    rcases hca : Client.canAttempt cb now with ⟨b, cb1⟩
    rw [hca] at h
    cases b
    · simp at h
    · simpa using applyFrom_result_none_iff cfg now cfg.max_retries outs 0 cb1

/-- C4 witness: instantiating the amended theorem — a closed breaker with a
404 first attempt yields null (permanent failure), and an open breaker
rejects the call outright with zero attempts. -/
theorem claim_C4_witness :
    (Client.applyPolicy ⟨5, 1/2, 8⟩ 1000
        [Client.Attempt.response 404 ⟨some 404, none, some 0, []⟩]
        ⟨5, 60, Client.CBState.closed, 0, none⟩).result = none ∧
    Client.applyPolicy ⟨5, 1/2, 8⟩ 70
        [Client.Attempt.response 200 ⟨some 200, none, some 0, []⟩]
        ⟨5, 60, Client.CBState.opened, 5, some 50⟩ =
      ⟨none, ⟨5, 60, Client.CBState.opened, 5, some 50⟩, [], 0⟩ :=
  ⟨((claim_C4_amended ⟨5, 1/2, 8⟩ 1000
      [Client.Attempt.response 404 ⟨some 404, none, some 0, []⟩]
      ⟨5, 60, Client.CBState.closed, 0, none⟩).2 rfl).mpr
      (Or.inr ⟨Client.Attempt.response 404 ⟨some 404, none, some 0, []⟩,
        by simp [Client.firstDecisive, Client.retryable],
        by simp [Client.permanent]⟩),
   by
    have h := (claim_C4_amended ⟨5, 1/2, 8⟩ 70
      [Client.Attempt.response 200 ⟨some 200, none, some 0, []⟩]
      ⟨5, 60, Client.CBState.opened, 5, some 50⟩).1
    rw [h]
    · norm_num [Client.canAttempt]
    · norm_num [Client.canAttempt]⟩

/-- State of a fresh breaker after k consecutive failures, all at time t:
the count is k, the time stamp is set once k ≥ 1, and the breaker is open
exactly when the threshold has been reached. -/
lemma iterFail_fresh (ft : Nat) (rt t : ℚ) :
    ∀ k : Nat,
      Client.iterFail k t ⟨ft, rt, Client.CBState.closed, 0, none⟩ =
        ⟨ft, rt,
          if ft ≤ k ∧ 1 ≤ k then Client.CBState.opened else Client.CBState.closed,
          k, if 1 ≤ k then some t else none⟩
  | 0 => by simp [Client.iterFail]
  | k + 1 => by
    rw [Client.iterFail, iterFail_fresh ft rt t k]
    unfold Client.recordFailure
    by_cases h1 : ft ≤ k + 1
    · simp [h1]
    · have h2 : ¬ ft ≤ k := fun hh => h1 (le_trans hh (Nat.le_succ k))
      simp [h1, h2]

/-- C6: the circuit-breaker state machine. Starting from a fresh closed
breaker: fewer than failure_threshold consecutive failures leave it closed,
and after exactly failure_threshold it is open; while open and before
recovery_timeout has elapsed since the trip time, apply() returns null with
zero network attempts and the breaker untouched; once recovery_timeout has
elapsed, the next can_attempt admits the call, moving the breaker to
HalfOpen; recording a success in HalfOpen returns it to Closed with the
failure count zeroed, and recording a failure in HalfOpen reopens it with a
fresh trip time. -/
theorem claim_C6_breaker (ft : Nat) (rt t now1 now2 nowF : ℚ)
    (cfg : Client.ClientCfg) (outs : List Client.Attempt)
    (hft : 1 ≤ ft) (ht : t ≠ 0) (h1 : now1 - t ≤ rt) (h2 : rt < now2 - t) :
    (∀ k < ft,
      (Client.iterFail k t ⟨ft, rt, Client.CBState.closed, 0, none⟩).state =
        Client.CBState.closed) ∧
    Client.iterFail ft t ⟨ft, rt, Client.CBState.closed, 0, none⟩ =
      ⟨ft, rt, Client.CBState.opened, ft, some t⟩ ∧
    Client.applyPolicy cfg now1 outs ⟨ft, rt, Client.CBState.opened, ft, some t⟩ =
      ⟨none, ⟨ft, rt, Client.CBState.opened, ft, some t⟩, [], 0⟩ ∧
    Client.canAttempt ⟨ft, rt, Client.CBState.opened, ft, some t⟩ now2 =
      (true, ⟨ft, rt, Client.CBState.halfOpen, ft, some t⟩) ∧
    Client.recordSuccess ⟨ft, rt, Client.CBState.halfOpen, ft, some t⟩ =
      ⟨ft, rt, Client.CBState.closed, 0, some t⟩ ∧
    Client.recordFailure ⟨ft, rt, Client.CBState.halfOpen, ft, some t⟩ nowF =
      ⟨ft, rt, Client.CBState.opened, ft + 1, some nowF⟩ := by
  refine ⟨?_, ?_, ?_, ?_, ?_, ?_⟩
  · intro k hk
    rw [iterFail_fresh]
    have : ¬ ft ≤ k := by omega
    simp [this]
  · rw [iterFail_fresh]
    simp [hft]
  · have hca : Client.canAttempt ⟨ft, rt, Client.CBState.opened, ft, some t⟩ now1 =
        (false, ⟨ft, rt, Client.CBState.opened, ft, some t⟩) := by
      simp [Client.canAttempt, not_lt.mpr h1]
    simp [Client.applyPolicy, hca]
  · simp [Client.canAttempt, ht, h2]
  · simp [Client.recordSuccess]
  · simp [Client.recordFailure, Nat.le_succ_of_le (le_refl ft)]

/-- C6 witness: threshold 3, recovery timeout 60, trip at t = 100: the
breaker opens after exactly 3 failures, rejects at time 150 with no attempt,
admits into HalfOpen at time 161, closes again on success, and reopens with
trip time 200 on failure. -/
theorem claim_C6_witness :
    (∀ k < 3,
      (Client.iterFail k 100 ⟨3, 60, Client.CBState.closed, 0, none⟩).state =
        Client.CBState.closed) ∧
    Client.iterFail 3 100 ⟨3, 60, Client.CBState.closed, 0, none⟩ =
      ⟨3, 60, Client.CBState.opened, 3, some 100⟩ ∧
    Client.applyPolicy ⟨5, 1/2, 8⟩ 150
        [Client.Attempt.response 200 ⟨some 200, none, some 0, []⟩]
        ⟨3, 60, Client.CBState.opened, 3, some 100⟩ =
      ⟨none, ⟨3, 60, Client.CBState.opened, 3, some 100⟩, [], 0⟩ ∧
    Client.canAttempt ⟨3, 60, Client.CBState.opened, 3, some 100⟩ 161 =
      (true, ⟨3, 60, Client.CBState.halfOpen, 3, some 100⟩) ∧
    Client.recordSuccess ⟨3, 60, Client.CBState.halfOpen, 3, some 100⟩ =
      ⟨3, 60, Client.CBState.closed, 0, some 100⟩ ∧
    Client.recordFailure ⟨3, 60, Client.CBState.halfOpen, 3, some 100⟩ 200 =
      ⟨3, 60, Client.CBState.opened, 4, some 200⟩ :=
  claim_C6_breaker 3 60 100 150 161 200 ⟨5, 1/2, 8⟩
    [Client.Attempt.response 200 ⟨some 200, none, some 0, []⟩]
    (by norm_num) (by norm_num) (by norm_num) (by norm_num)

end Claims
